import Mathlib

/-!
# go-feature-flag: the typed variation layer (`variation.go`)

A shallow embedding of package `ffclient`, file `variation.go`: the six typed
read accessors `BoolVariation`, `IntVariation`, `Float64Variation`,
`StringVariation`, `JSONArrayVariation`, `JSONVariation` and the guard
`cacheIsInitialized`.

Modelling choices.

* The package-level variable `cache.FlagsCache` is the only global the file
  touches.  It lives in the record `Globals`, and every Go function becomes a
  computation in the state monad over `Globals`, so that reads of the global are
  explicit (`get`) and a write would be visible as a changed final state.
* A Go `map[string]T` is `Option (List (String × T))`: `none` is the nil map,
  `some l` an allocated map whose entry for `k` is the first pair of `l` with
  key `k`.  A Go slice is `Option (List T)` in the same way.
* `interface{}` is the tagged union `Any`: the nil interface, a value of one of
  the six dynamic types the file asserts, or a value of some other dynamic type.
* Go `int` is `Int`; the file performs no arithmetic on it.  A `float64` is
  carried as its IEEE-754 bit pattern; the file performs no arithmetic on it
  either.
* `error` is `Option errors.errorString`: `none` is the nil error.
* The method `flags.Flag.Value` (the rule evaluator) is not part of
  `variation.go`; every operation takes it as its first argument.
* Of package `internal/retriever` only the test file is at hand; the local-file
  retriever is written from the specification and reads a file system given as
  a map from path to optional contents.
-/

namespace ffclient

/-! ## Go values -/

/-- A Go `float64`, carried as its 64-bit IEEE-754 pattern (`bits < 2^64`).
The zero value `0.0` is the pattern `0`. -/
structure float64 where
  bits : Nat
  deriving DecidableEq, Repr

/-- The Go empty interface `interface{}`.  `nil` is the nil interface (no
dynamic type); `slice` is a `[]interface{}` (possibly the nil slice), `map` a
`map[string]interface{}` (possibly the nil map); `other t` stands for a value of
any dynamic type that is none of the six named here (`int64`, a struct, ...),
`t` identifying the value. -/
inductive Any where
  | nil
  | bool (b : Bool)
  | int (i : Int)
  | float64 (f : float64)
  | string (s : String)
  | slice (xs : Option (List Any))
  | map (m : Option (List (String × Any)))
  | other (t : Nat)

/-- The dynamic types an `interface{}` value can carry. -/
inductive GoType where
  | bool
  | int
  | float64
  | string
  | slice
  | map
  | other
  deriving DecidableEq, Repr

/-- The dynamic type of an interface value; the nil interface has none. -/
def Any.typeOf : Any → Option GoType
  | .nil => none
  | .bool _ => some .bool
  | .int _ => some .int
  | .float64 _ => some .float64
  | .string _ => some .string
  | .slice _ => some .slice
  | .map _ => some .map
  | .other _ => some .other

/-- The comma-ok type assertion `v.(bool)`: the value and `true` when the
dynamic type is `bool`, the zero value and `false` otherwise.  It never
panics. -/
def Any.assertBool : Any → Bool × Bool
  | .bool b => (b, true)
  | _ => (false, false)

/-- The comma-ok type assertion `v.(int)`. -/
def Any.assertInt : Any → Int × Bool
  | .int i => (i, true)
  | _ => (0, false)

/-- The comma-ok type assertion `v.(float64)`. -/
def Any.assertFloat64 : Any → ffclient.float64 × Bool
  | .float64 f => (f, true)
  | _ => (⟨0⟩, false)

/-- The comma-ok type assertion `v.(string)`. -/
def Any.assertString : Any → String × Bool
  | .string s => (s, true)
  | _ => ("", false)

/-- The comma-ok type assertion `v.([]interface{})`. -/
def Any.assertSlice : Any → Option (List Any) × Bool
  | .slice xs => (xs, true)
  | _ => (none, false)

/-- The comma-ok type assertion `v.(map[string]interface{})`. -/
def Any.assertMap : Any → Option (List (String × Any)) × Bool
  | .map m => (m, true)
  | _ => (none, false)

/-! ## Errors -/

namespace errors

/-- The implementation type behind `errors.New`. -/
structure errorString where
  s : String
  deriving DecidableEq, Repr

/-- The function `errors.New`: a non-nil error carrying `text`. -/
def New (text : String) : Option errorString :=
  some ⟨text⟩

/-- The method `Error` of `*errorString`: the message the error carries. -/
def errorString.Error (e : errorString) : String :=
  e.s

end errors

/-- The Go interface type `error`; `none` is the nil error. -/
abbrev error := Option errors.errorString

/-! ## Collaborators that are not part of `variation.go` -/

/-- Modelled from the spec: the user context `ffuser.User`, "an opaque
identifier plus attributes (including an anonymous/not-anonymous flag)".  The
variation layer passes it through without inspecting it. -/
structure User where
  key : String
  anonymous : Bool
  custom : List (String × Any)

/-- Modelled from the spec: the flag definition `flags.Flag`, "a rule expression
(string), a rollout percentage (numeric), and three variant-typed slots"; the
field names are those of the composite literals in `variation_test.go`. -/
structure Flag where
  Rule : String
  Percentage : Int
  True : Any
  False : Any
  Default : Any

/-- The zero value of `flags.Flag`, which a failed map lookup yields. -/
def Flag.zero : Flag :=
  ⟨"", 0, .nil, .nil, .nil⟩

/-- The signature of the method `flags.Flag.Value(flagName, user) interface{}`,
the external rule evaluator. -/
abbrev Evaluator := Flag → String → User → Any

/-! ## Package state -/

/-- The package-level variables `variation.go` reads: `cache.FlagsCache`, a
`map[string]flags.Flag` that is nil until the library is initialised. -/
structure Globals where
  FlagsCache : Option (List (String × Flag))

/-- The comma-ok map index `flag, ok := m[key]` on a `map[string]flags.Flag`.
Reading a nil map is allowed in Go and finds nothing. -/
def mapIndex (m : Option (List (String × Flag))) (key : String) : Flag × Bool :=
  match m with
  | none => (Flag.zero, false)
  | some l =>
    match l.lookup key with
    | some flag => (flag, true)
    | none => (Flag.zero, false)

/-! ## `variation.go` -/

def errorCacheNotInit : String :=
  "impossible to read the toggle before the initialisation"

def cacheIsInitialized : StateM Globals Bool := do
  let g ← get
  return g.FlagsCache.isSome

def BoolVariation (Value : Evaluator) (flagKey : String) (user : User)
    (defaultValue : Bool) : StateM Globals (Bool × error) := do
  if !(← cacheIsInitialized) then
    return (false, errors.New errorCacheNotInit)
  let (flag, ok) := mapIndex (← get).FlagsCache flagKey
  if !ok then
    return (defaultValue, none)
  let (res, ok) := (Value flag flagKey user).assertBool
  if !ok then
    return (defaultValue, none)
  return (res, none)

def IntVariation (Value : Evaluator) (flagKey : String) (user : User)
    (defaultValue : Int) : StateM Globals (Int × error) := do
  if !(← cacheIsInitialized) then
    return (0, errors.New errorCacheNotInit)
  let (flag, ok) := mapIndex (← get).FlagsCache flagKey
  if !ok then
    return (defaultValue, none)
  let (res, ok) := (Value flag flagKey user).assertInt
  if !ok then
    return (defaultValue, none)
  return (res, none)

def Float64Variation (Value : Evaluator) (flagKey : String) (user : User)
    (defaultValue : float64) : StateM Globals (float64 × error) := do
  if !(← cacheIsInitialized) then
    return (⟨0⟩, errors.New errorCacheNotInit)
  let (flag, ok) := mapIndex (← get).FlagsCache flagKey
  if !ok then
    return (defaultValue, none)
  let (res, ok) := (Value flag flagKey user).assertFloat64
  if !ok then
    return (defaultValue, none)
  return (res, none)

def StringVariation (Value : Evaluator) (flagKey : String) (user : User)
    (defaultValue : String) : StateM Globals (String × error) := do
  if !(← cacheIsInitialized) then
    return ("", errors.New errorCacheNotInit)
  let (flag, ok) := mapIndex (← get).FlagsCache flagKey
  if !ok then
    return (defaultValue, none)
  let (res, ok) := (Value flag flagKey user).assertString
  if !ok then
    return (defaultValue, none)
  return (res, none)

def JSONArrayVariation (Value : Evaluator) (flagKey : String) (user : User)
    (defaultValue : Option (List Any)) : StateM Globals (Option (List Any) × error) := do
  if !(← cacheIsInitialized) then
    return (none, errors.New errorCacheNotInit)
  let (flag, ok) := mapIndex (← get).FlagsCache flagKey
  if !ok then
    return (defaultValue, none)
  let (res, ok) := (Value flag flagKey user).assertSlice
  if !ok then
    return (defaultValue, none)
  return (res, none)

def JSONVariation (Value : Evaluator) (flagKey : String) (user : User)
    (defaultValue : Option (List (String × Any))) :
    StateM Globals (Option (List (String × Any)) × error) := do
  if !(← cacheIsInitialized) then
    return (none, errors.New errorCacheNotInit)
  let (flag, ok) := mapIndex (← get).FlagsCache flagKey
  if !ok then
    return (defaultValue, none)
  let (res, ok) := (Value flag flagKey user).assertMap
  if !ok then
    return (defaultValue, none)
  return (res, none)

/-- Running a Go call from the package state `g`: the call's results, and the
package state it leaves behind. -/
def call {α : Type} (f : StateM Globals α) (g : Globals) : α × Globals :=
  f.run g

/-! ## The specification's generic resolution (section 4.1) -/

/-- "Attempt to view the untyped result as type T", at T = bool. -/
def Any.asBool : Any → Option Bool
  | .bool b => some b
  | _ => none

/-- The view at T = int. -/
def Any.asInt : Any → Option Int
  | .int i => some i
  | _ => none

/-- The view at T = float64. -/
def Any.asFloat64 : Any → Option ffclient.float64
  | .float64 f => some f
  | _ => none

/-- The view at T = string. -/
def Any.asString : Any → Option String
  | .string s => some s
  | _ => none

/-- The view at T = ordered list of untyped elements. -/
def Any.asSlice : Any → Option (Option (List Any))
  | .slice xs => some xs
  | _ => none

/-- The view at T = string-keyed mapping of untyped values. -/
def Any.asMap : Any → Option (Option (List (String × Any)))
  | .map m => some m
  | _ => none

/-- The contract `resolve<T>` as the specification words it, step by step:
(1) uninitialised cache: the zero value and the not-initialised error;
(2) no entry for the key: the default, no error;
(3) evaluate the definition on `(flagKey, user)`;
(4) the result is not a `T`: the default, no error;
(5) otherwise the typed result, no error. -/
def resolve {T : Type} (zero : T) (view : Any → Option T) (evaluate : Evaluator)
    (cache : Option (List (String × Flag))) (flagKey : String) (user : User)
    (defaultValue : T) : T × error :=
  match cache with
  | none => (zero, errors.New errorCacheNotInit)
  | some entries =>
    match entries.lookup flagKey with
    | none => (defaultValue, none)
    | some definition =>
      match view (evaluate definition flagKey user) with
      | none => (defaultValue, none)
      | some typed => (typed, none)

/-! ## Fixtures of `variation_test.go`, for the worked examples -/

/-- Modelled from the spec: `ffuser.NewUser(key)`, a user that is not
anonymous. -/
def NewUser (key : String) : User :=
  ⟨key, false, []⟩

/-- Modelled from the spec: `ffuser.NewAnonymousUser(key)`, an anonymous
user. -/
def NewAnonymousUser (key : String) : User :=
  ⟨key, true, []⟩

/-- The single definition every table of `variation_test.go` installs under
`"test-flag"`, for given slot values. -/
def testFlag (t f d : Any) : Flag :=
  ⟨"anonymous eq true", 50, t, f, d⟩

/-- The value `flagCacheMock` of the tests as package state. -/
def flagCacheMock (t f d : Any) : Globals :=
  ⟨some [("test-flag", testFlag t f d)]⟩

/-- A stand-in evaluator for the worked examples only (the repository's
evaluator is outside `variation.go`): the rule "anonymous eq true" without a
rollout, that is the `True` slot for an anonymous user and the `Default` slot
for any other. -/
def sampleValue : Evaluator :=
  fun flag _ user => if user.anonymous then flag.True else flag.Default

/-- The `float64` constants of `TestFloat64Variation` as bit patterns. -/
def f118 : float64 := ⟨0x405D800000000000⟩

def f119 : float64 := ⟨0x405DC00000000000⟩

def f120 : float64 := ⟨0x405E000000000000⟩

def f121 : float64 := ⟨0x405E400000000000⟩

/-! ## The local-file retriever (`internal/retriever`)

Only the test of this package, `retriever_file_test.go`, is at hand; the
retriever itself is written here from the specification (section 4.2). -/

/-- Modelled from the spec: the file system a retriever reads, a map from path
to optional byte contents; `none` is a path that cannot be opened or read. -/
abbrev FileSystem := String → Option (List UInt8)

/-- Modelled from the spec: the `LocalFile` retriever, "constructed with a
file-system path (string, captured at construction, immutable thereafter)". -/
structure localRetriever where
  path : String

/-- Modelled from the spec: `newLocalFileRetriever(path)`, called
`NewLocalRetriever` in `retriever_file_test.go`. -/
def NewLocalRetriever (path : String) : localRetriever :=
  ⟨path⟩

/-- Modelled from the spec: `retrieve()`.  "It opens the path for reading, reads
the entire contents as a contiguous byte sequence, and returns it"; "if the path
cannot be opened or read ... it fails with a retrieval error carrying the
underlying cause; it returns no partial bytes (the returned byte sequence is
unset/absent on error)".  The call is given the file system and hands back,
next to its two results, the retriever and the file system as it leaves them.
The byte sequence is a Go `[]byte`, `none` being nil. -/
def localRetriever.Retrieve (l : localRetriever) (files : FileSystem) :
    (Option (List UInt8) × error) × localRetriever × FileSystem :=
  match files l.path with
  | some content => ((some content, none), l, files)
  | none => ((none, errors.New ("open " ++ l.path ++ ": no such file or directory")), l, files)

/-- The bytes the test expects for `testdata/test.yaml`. -/
def testYaml : List UInt8 :=
  ("test-flag:\n  rule: key eq \"toto\"\n  percentage: 100\n  true: true\n" ++
    "  false: false\n  default: false\n").toUTF8.toList

/-- The file system of the test run: `testdata/test.yaml` exists, nothing else
does. -/
def testFiles : FileSystem :=
  fun path => if path = "../../testdata/test.yaml" then some testYaml else none

/-! ## The shape of each operation

One lemma per operation, unfolding the monadic code into the decision tree it
computes.  All later results go through these. -/

theorem BoolVariation_call (Value : Evaluator) (flagKey : String) (user : User)
    (defaultValue : Bool) (g : Globals) :
    call (BoolVariation Value flagKey user defaultValue) g =
      (match g.FlagsCache with
        | none => (false, some ⟨errorCacheNotInit⟩)
        | some l =>
          match l.lookup flagKey with
          | none => (defaultValue, none)
          | some flag =>
            match Value flag flagKey user with
            | .bool b => (b, none)
            | _ => (defaultValue, none), g) := by
  obtain ⟨c⟩ := g
  cases c with
  | none => rfl
  | some l =>
    cases h : l.lookup flagKey with
    | none =>
      simp [call, BoolVariation, cacheIsInitialized, mapIndex, StateT.run, bind, StateT.bind, get,
        getThe, MonadStateOf.get, StateT.get, pure, StateT.pure, h]
    | some flag =>
      cases hv : Value flag flagKey user <;>
      simp [call, BoolVariation, cacheIsInitialized, mapIndex, StateT.run, bind, StateT.bind, get,
        getThe, MonadStateOf.get, StateT.get, pure, StateT.pure, h, hv, Any.assertBool]

theorem IntVariation_call (Value : Evaluator) (flagKey : String) (user : User)
    (defaultValue : Int) (g : Globals) :
    call (IntVariation Value flagKey user defaultValue) g =
      (match g.FlagsCache with
        | none => (0, some ⟨errorCacheNotInit⟩)
        | some l =>
          match l.lookup flagKey with
          | none => (defaultValue, none)
          | some flag =>
            match Value flag flagKey user with
            | .int i => (i, none)
            | _ => (defaultValue, none), g) := by
  obtain ⟨c⟩ := g
  cases c with
  | none => rfl
  | some l =>
    cases h : l.lookup flagKey with
    | none =>
      simp [call, IntVariation, cacheIsInitialized, mapIndex, StateT.run, bind, StateT.bind, get,
        getThe, MonadStateOf.get, StateT.get, pure, StateT.pure, h]
    | some flag =>
      cases hv : Value flag flagKey user <;>
      simp [call, IntVariation, cacheIsInitialized, mapIndex, StateT.run, bind, StateT.bind, get,
        getThe, MonadStateOf.get, StateT.get, pure, StateT.pure, h, hv, Any.assertInt]

theorem Float64Variation_call (Value : Evaluator) (flagKey : String) (user : User)
    (defaultValue : float64) (g : Globals) :
    call (Float64Variation Value flagKey user defaultValue) g =
      (match g.FlagsCache with
        | none => (⟨0⟩, some ⟨errorCacheNotInit⟩)
        | some l =>
          match l.lookup flagKey with
          | none => (defaultValue, none)
          | some flag =>
            match Value flag flagKey user with
            | .float64 f => (f, none)
            | _ => (defaultValue, none), g) := by
  obtain ⟨c⟩ := g
  cases c with
  | none => rfl
  | some l =>
    cases h : l.lookup flagKey with
    | none =>
      simp [call, Float64Variation, cacheIsInitialized, mapIndex, StateT.run, bind, StateT.bind, get,
        getThe, MonadStateOf.get, StateT.get, pure, StateT.pure, h]
    | some flag =>
      cases hv : Value flag flagKey user <;>
      simp [call, Float64Variation, cacheIsInitialized, mapIndex, StateT.run, bind, StateT.bind, get,
        getThe, MonadStateOf.get, StateT.get, pure, StateT.pure, h, hv, Any.assertFloat64]

theorem StringVariation_call (Value : Evaluator) (flagKey : String) (user : User)
    (defaultValue : String) (g : Globals) :
    call (StringVariation Value flagKey user defaultValue) g =
      (match g.FlagsCache with
        | none => ("", some ⟨errorCacheNotInit⟩)
        | some l =>
          match l.lookup flagKey with
          | none => (defaultValue, none)
          | some flag =>
            match Value flag flagKey user with
            | .string s => (s, none)
            | _ => (defaultValue, none), g) := by
  obtain ⟨c⟩ := g
  cases c with
  | none => rfl
  | some l =>
    cases h : l.lookup flagKey with
    | none =>
      simp [call, StringVariation, cacheIsInitialized, mapIndex, StateT.run, bind, StateT.bind, get,
        getThe, MonadStateOf.get, StateT.get, pure, StateT.pure, h]
    | some flag =>
      cases hv : Value flag flagKey user <;>
      simp [call, StringVariation, cacheIsInitialized, mapIndex, StateT.run, bind, StateT.bind, get,
        getThe, MonadStateOf.get, StateT.get, pure, StateT.pure, h, hv, Any.assertString]

theorem JSONArrayVariation_call (Value : Evaluator) (flagKey : String) (user : User)
    (defaultValue : Option (List Any)) (g : Globals) :
    call (JSONArrayVariation Value flagKey user defaultValue) g =
      (match g.FlagsCache with
        | none => (none, some ⟨errorCacheNotInit⟩)
        | some l =>
          match l.lookup flagKey with
          | none => (defaultValue, none)
          | some flag =>
            match Value flag flagKey user with
            | .slice xs => (xs, none)
            | _ => (defaultValue, none), g) := by
  obtain ⟨c⟩ := g
  cases c with
  | none => rfl
  | some l =>
    cases h : l.lookup flagKey with
    | none =>
      simp [call, JSONArrayVariation, cacheIsInitialized, mapIndex, StateT.run, bind, StateT.bind, get,
        getThe, MonadStateOf.get, StateT.get, pure, StateT.pure, h]
    | some flag =>
      cases hv : Value flag flagKey user <;>
      simp [call, JSONArrayVariation, cacheIsInitialized, mapIndex, StateT.run, bind, StateT.bind, get,
        getThe, MonadStateOf.get, StateT.get, pure, StateT.pure, h, hv, Any.assertSlice]

theorem JSONVariation_call (Value : Evaluator) (flagKey : String) (user : User)
    (defaultValue : Option (List (String × Any))) (g : Globals) :
    call (JSONVariation Value flagKey user defaultValue) g =
      (match g.FlagsCache with
        | none => (none, some ⟨errorCacheNotInit⟩)
        | some l =>
          match l.lookup flagKey with
          | none => (defaultValue, none)
          | some flag =>
            match Value flag flagKey user with
            | .map m => (m, none)
            | _ => (defaultValue, none), g) := by
  obtain ⟨c⟩ := g
  cases c with
  | none => rfl
  | some l =>
    cases h : l.lookup flagKey with
    | none =>
      simp [call, JSONVariation, cacheIsInitialized, mapIndex, StateT.run, bind, StateT.bind, get,
        getThe, MonadStateOf.get, StateT.get, pure, StateT.pure, h]
    | some flag =>
      cases hv : Value flag flagKey user <;>
      simp [call, JSONVariation, cacheIsInitialized, mapIndex, StateT.run, bind, StateT.bind, get,
        getThe, MonadStateOf.get, StateT.get, pure, StateT.pure, h, hv, Any.assertMap]

/-! ## Dynamic types -/

theorem Any.eq_bool_of_typeOf {v : Any} (h : v.typeOf = some .bool) : ∃ x, v = .bool x := by
  cases v <;> simp_all [Any.typeOf]

theorem Any.eq_int_of_typeOf {v : Any} (h : v.typeOf = some .int) : ∃ x, v = .int x := by
  cases v <;> simp_all [Any.typeOf]

theorem Any.eq_float64_of_typeOf {v : Any} (h : v.typeOf = some .float64) : ∃ x, v = .float64 x := by
  cases v <;> simp_all [Any.typeOf]

theorem Any.eq_string_of_typeOf {v : Any} (h : v.typeOf = some .string) : ∃ x, v = .string x := by
  cases v <;> simp_all [Any.typeOf]

theorem Any.eq_slice_of_typeOf {v : Any} (h : v.typeOf = some .slice) : ∃ x, v = .slice x := by
  cases v <;> simp_all [Any.typeOf]

theorem Any.eq_map_of_typeOf {v : Any} (h : v.typeOf = some .map) : ∃ x, v = .map x := by
  cases v <;> simp_all [Any.typeOf]

/-! ## The contract of the six operations -/

/-- C1: on an uninitialised (nil) flag cache each of the six operations returns
the zero value of its result type (`false`, `0`, `0.0`, `""`, the nil slice, the
nil map) together with a non-nil error, for every evaluator, flag key, user and
caller default; in particular `BoolVariation` with default `true` yields
`false`, not the default. -/
theorem variation_uninitialized_zero_and_error (Value : Evaluator) (flagKey : String)
    (user : User) (g : Globals) (hnil : g.FlagsCache = none) :
    (∀ d : Bool,
      (call (BoolVariation Value flagKey user d) g).1.1 = false ∧
      (call (BoolVariation Value flagKey user d) g).1.2 ≠ none) ∧
    (∀ d : Int,
      (call (IntVariation Value flagKey user d) g).1.1 = 0 ∧
      (call (IntVariation Value flagKey user d) g).1.2 ≠ none) ∧
    (∀ d : float64,
      (call (Float64Variation Value flagKey user d) g).1.1 = ⟨0⟩ ∧
      (call (Float64Variation Value flagKey user d) g).1.2 ≠ none) ∧
    (∀ d : String,
      (call (StringVariation Value flagKey user d) g).1.1 = "" ∧
      (call (StringVariation Value flagKey user d) g).1.2 ≠ none) ∧
    (∀ d : Option (List Any),
      (call (JSONArrayVariation Value flagKey user d) g).1.1 = none ∧
      (call (JSONArrayVariation Value flagKey user d) g).1.2 ≠ none) ∧
    (∀ d : Option (List (String × Any)),
      (call (JSONVariation Value flagKey user d) g).1.1 = none ∧
      (call (JSONVariation Value flagKey user d) g).1.2 ≠ none) ∧
    (call (BoolVariation Value flagKey user true) g).1.1 ≠ true := by
  simp [BoolVariation_call, IntVariation_call, Float64Variation_call, StringVariation_call,
    JSONArrayVariation_call, JSONVariation_call, hnil]

/-- C1, worked example: the first row of `TestBoolVariation` and of
`TestStringVariation` (cache nil). -/
theorem variation_uninitialized_zero_and_error_witness :
    (Globals.mk none).FlagsCache = none ∧
    (call (BoolVariation sampleValue "key-not-exist" (NewUser "random-key") true)
      (Globals.mk none)).1.1 = false ∧
    (call (BoolVariation sampleValue "key-not-exist" (NewUser "random-key") true)
      (Globals.mk none)).1.2 ≠ none ∧
    (call (StringVariation sampleValue "test-flag" (NewUser "random-key") "default-notkey")
      (Globals.mk none)).1.1 = "" :=
  have h := variation_uninitialized_zero_and_error sampleValue "key-not-exist"
    (NewUser "random-key") (Globals.mk none) rfl
  have h2 := variation_uninitialized_zero_and_error sampleValue "test-flag"
    (NewUser "random-key") (Globals.mk none) rfl
  ⟨rfl, (h.1 true).1, (h.1 true).2, (h2.2.2.2.1 "default-notkey").1⟩

/-- C2: on an initialised cache (the empty one included) and a flag key with no
entry in it, each of the six operations returns exactly the caller's default and
a nil error, for every evaluator and user. -/
theorem variation_absent_key_default (Value : Evaluator) (flagKey : String) (user : User)
    (g : Globals) (entries : List (String × Flag)) (hinit : g.FlagsCache = some entries)
    (habsent : entries.lookup flagKey = none) :
    (∀ d : Bool, (call (BoolVariation Value flagKey user d) g).1 = (d, none)) ∧
    (∀ d : Int, (call (IntVariation Value flagKey user d) g).1 = (d, none)) ∧
    (∀ d : float64, (call (Float64Variation Value flagKey user d) g).1 = (d, none)) ∧
    (∀ d : String, (call (StringVariation Value flagKey user d) g).1 = (d, none)) ∧
    (∀ d : Option (List Any), (call (JSONArrayVariation Value flagKey user d) g).1 = (d, none)) ∧
    (∀ d : Option (List (String × Any)), (call (JSONVariation Value flagKey user d) g).1 = (d, none)) := by
  simp [BoolVariation_call, IntVariation_call, Float64Variation_call, StringVariation_call,
    JSONArrayVariation_call, JSONVariation_call, hinit, habsent]

/-- C2, worked example: the initialised cache with zero entries, and the row
"Get default value with key not exist" of `TestIntVariation`. -/
theorem variation_absent_key_default_witness :
    ((Globals.mk (some [])).FlagsCache = some [] ∧
      List.lookup "key-not-exist" ([] : List (String × Flag)) = none ∧
      (call (JSONVariation sampleValue "key-not-exist" (NewUser "random-key")
        (some [("default-notkey", Any.bool true)])) (Globals.mk (some []))).1 =
        (some [("default-notkey", Any.bool true)], none)) ∧
    (List.lookup "key-not-exist" [("test-flag", testFlag (.int 120) (.int 121) (.int 119))] =
        none ∧
      (call (IntVariation sampleValue "key-not-exist" (NewUser "random-key") 118)
        (flagCacheMock (.int 120) (.int 121) (.int 119))).1 = (118, none)) :=
  ⟨⟨rfl, rfl,
    (variation_absent_key_default sampleValue "key-not-exist" (NewUser "random-key")
      (Globals.mk (some [])) [] rfl rfl).2.2.2.2.2 _⟩,
   ⟨by simp [List.lookup],
    (variation_absent_key_default sampleValue "key-not-exist" (NewUser "random-key")
      (flagCacheMock (.int 120) (.int 121) (.int 119)) _ rfl (by simp [List.lookup])).2.1 118⟩⟩

/-- C3: on an initialised cache with an entry for the flag key, if evaluating
that entry on `(flagKey, user)` yields a value whose dynamic type is the type the
operation asks for, the operation returns that very value and a nil error,
whatever the caller's default. -/
theorem variation_matching_type_returns_value (Value : Evaluator) (flagKey : String)
    (user : User) (g : Globals) (entries : List (String × Flag)) (flag : Flag)
    (hinit : g.FlagsCache = some entries) (hpresent : entries.lookup flagKey = some flag) :
    (∀ d : Bool, (Value flag flagKey user).typeOf = some .bool →
      Any.bool (call (BoolVariation Value flagKey user d) g).1.1 = Value flag flagKey user ∧
      (call (BoolVariation Value flagKey user d) g).1.2 = none) ∧
    (∀ d : Int, (Value flag flagKey user).typeOf = some .int →
      Any.int (call (IntVariation Value flagKey user d) g).1.1 = Value flag flagKey user ∧
      (call (IntVariation Value flagKey user d) g).1.2 = none) ∧
    (∀ d : float64, (Value flag flagKey user).typeOf = some .float64 →
      Any.float64 (call (Float64Variation Value flagKey user d) g).1.1 = Value flag flagKey user ∧
      (call (Float64Variation Value flagKey user d) g).1.2 = none) ∧
    (∀ d : String, (Value flag flagKey user).typeOf = some .string →
      Any.string (call (StringVariation Value flagKey user d) g).1.1 = Value flag flagKey user ∧
      (call (StringVariation Value flagKey user d) g).1.2 = none) ∧
    (∀ d : Option (List Any), (Value flag flagKey user).typeOf = some .slice →
      Any.slice (call (JSONArrayVariation Value flagKey user d) g).1.1 = Value flag flagKey user ∧
      (call (JSONArrayVariation Value flagKey user d) g).1.2 = none) ∧
    (∀ d : Option (List (String × Any)), (Value flag flagKey user).typeOf = some .map →
      Any.map (call (JSONVariation Value flagKey user d) g).1.1 = Value flag flagKey user ∧
      (call (JSONVariation Value flagKey user d) g).1.2 = none) := by
  refine ⟨?_, ?_, ?_, ?_, ?_, ?_⟩ <;> intro d htype <;>
    cases hv : Value flag flagKey user <;>
    simp_all [BoolVariation_call, IntVariation_call, Float64Variation_call, StringVariation_call,
    JSONArrayVariation_call, JSONVariation_call, Any.typeOf]

/-- C3, worked example: after the rows "Get true value, rule apply" of the six
test tables, with the stand-in evaluator selecting the `True` slot (the bool row
with caller default `false`, so that the result differs from the default). -/
theorem variation_matching_type_returns_value_witness :
    ((sampleValue (testFlag (.bool true) (.bool false) (.bool true)) "test-flag"
        (NewAnonymousUser "random-key")).typeOf = some .bool ∧
      Any.bool (call (BoolVariation sampleValue "test-flag" (NewAnonymousUser "random-key") false)
        (flagCacheMock (.bool true) (.bool false) (.bool true))).1.1 = Any.bool true ∧
      (call (BoolVariation sampleValue "test-flag" (NewAnonymousUser "random-key") false)
        (flagCacheMock (.bool true) (.bool false) (.bool true))).1.2 = none) ∧
    ((sampleValue (testFlag (.int 120) (.int 121) (.int 119)) "test-flag"
        (NewAnonymousUser "random-key")).typeOf = some .int ∧
      Any.int (call (IntVariation sampleValue "test-flag" (NewAnonymousUser "random-key") 118)
        (flagCacheMock (.int 120) (.int 121) (.int 119))).1.1 = Any.int 120 ∧
      (call (IntVariation sampleValue "test-flag" (NewAnonymousUser "random-key") 118)
        (flagCacheMock (.int 120) (.int 121) (.int 119))).1.2 = none) ∧
    ((sampleValue (testFlag (.float64 f120) (.float64 f121) (.float64 f119)) "test-flag"
        (NewAnonymousUser "random-key")).typeOf = some .float64 ∧
      Any.float64 (call (Float64Variation sampleValue "test-flag" (NewAnonymousUser "random-key") f118)
        (flagCacheMock (.float64 f120) (.float64 f121) (.float64 f119))).1.1 = Any.float64 f120 ∧
      (call (Float64Variation sampleValue "test-flag" (NewAnonymousUser "random-key") f118)
        (flagCacheMock (.float64 f120) (.float64 f121) (.float64 f119))).1.2 = none) ∧
    ((sampleValue (testFlag (.string "true") (.string "false") (.string "default")) "test-flag"
        (NewAnonymousUser "random-key")).typeOf = some .string ∧
      Any.string (call (StringVariation sampleValue "test-flag" (NewAnonymousUser "random-key") "default-notkey")
        (flagCacheMock (.string "true") (.string "false") (.string "default"))).1.1 = Any.string "true" ∧
      (call (StringVariation sampleValue "test-flag" (NewAnonymousUser "random-key") "default-notkey")
        (flagCacheMock (.string "true") (.string "false") (.string "default"))).1.2 = none) ∧
    ((sampleValue (testFlag (.slice (some [.string "true"])) (.slice (some [.string "false"])) (.slice (some [.string "default"]))) "test-flag"
        (NewAnonymousUser "random-key")).typeOf = some .slice ∧
      Any.slice (call (JSONArrayVariation sampleValue "test-flag" (NewAnonymousUser "random-key") (some [.string "toto"]))
        (flagCacheMock (.slice (some [.string "true"])) (.slice (some [.string "false"])) (.slice (some [.string "default"])))).1.1 = Any.slice (some [.string "true"]) ∧
      (call (JSONArrayVariation sampleValue "test-flag" (NewAnonymousUser "random-key") (some [.string "toto"]))
        (flagCacheMock (.slice (some [.string "true"])) (.slice (some [.string "false"])) (.slice (some [.string "default"])))).1.2 = none) ∧
    ((sampleValue (testFlag (.map (some [("true", .bool true)])) (.map (some [("false", .bool true)])) (.map (some [("default", .bool true)]))) "test-flag"
        (NewAnonymousUser "random-key")).typeOf = some .map ∧
      Any.map (call (JSONVariation sampleValue "test-flag" (NewAnonymousUser "random-key") (some [("default-notkey", .bool true)]))
        (flagCacheMock (.map (some [("true", .bool true)])) (.map (some [("false", .bool true)])) (.map (some [("default", .bool true)])))).1.1 = Any.map (some [("true", .bool true)]) ∧
      (call (JSONVariation sampleValue "test-flag" (NewAnonymousUser "random-key") (some [("default-notkey", .bool true)]))
        (flagCacheMock (.map (some [("true", .bool true)])) (.map (some [("false", .bool true)])) (.map (some [("default", .bool true)])))).1.2 = none) :=
  ⟨⟨rfl, (variation_matching_type_returns_value sampleValue "test-flag"
      (NewAnonymousUser "random-key") (flagCacheMock (.bool true) (.bool false) (.bool true)) _ (testFlag (.bool true) (.bool false) (.bool true))
      rfl (by simp [List.lookup])).1 false rfl⟩,
   ⟨rfl, (variation_matching_type_returns_value sampleValue "test-flag"
      (NewAnonymousUser "random-key") (flagCacheMock (.int 120) (.int 121) (.int 119)) _ (testFlag (.int 120) (.int 121) (.int 119))
      rfl (by simp [List.lookup])).2.1 118 rfl⟩,
   ⟨rfl, (variation_matching_type_returns_value sampleValue "test-flag"
      (NewAnonymousUser "random-key") (flagCacheMock (.float64 f120) (.float64 f121) (.float64 f119)) _ (testFlag (.float64 f120) (.float64 f121) (.float64 f119))
      rfl (by simp [List.lookup])).2.2.1 f118 rfl⟩,
   ⟨rfl, (variation_matching_type_returns_value sampleValue "test-flag"
      (NewAnonymousUser "random-key") (flagCacheMock (.string "true") (.string "false") (.string "default")) _ (testFlag (.string "true") (.string "false") (.string "default"))
      rfl (by simp [List.lookup])).2.2.2.1 "default-notkey" rfl⟩,
   ⟨rfl, (variation_matching_type_returns_value sampleValue "test-flag"
      (NewAnonymousUser "random-key") (flagCacheMock (.slice (some [.string "true"])) (.slice (some [.string "false"])) (.slice (some [.string "default"]))) _ (testFlag (.slice (some [.string "true"])) (.slice (some [.string "false"])) (.slice (some [.string "default"])))
      rfl (by simp [List.lookup])).2.2.2.2.1 (some [.string "toto"]) rfl⟩,
   ⟨rfl, (variation_matching_type_returns_value sampleValue "test-flag"
      (NewAnonymousUser "random-key") (flagCacheMock (.map (some [("true", .bool true)])) (.map (some [("false", .bool true)])) (.map (some [("default", .bool true)]))) _ (testFlag (.map (some [("true", .bool true)])) (.map (some [("false", .bool true)])) (.map (some [("default", .bool true)])))
      rfl (by simp [List.lookup])).2.2.2.2.2 (some [("default-notkey", .bool true)]) rfl⟩⟩

/-- C4: on an initialised cache with an entry for the flag key, if evaluating
that entry yields a value whose dynamic type is not the requested one (the nil
interface, which has no dynamic type, included), the operation returns exactly
the caller's default and a nil error: a type mismatch is never an error. -/
theorem variation_mismatched_type_returns_default (Value : Evaluator) (flagKey : String)
    (user : User) (g : Globals) (entries : List (String × Flag)) (flag : Flag)
    (hinit : g.FlagsCache = some entries) (hpresent : entries.lookup flagKey = some flag) :
    (∀ d : Bool, (Value flag flagKey user).typeOf ≠ some .bool →
      (call (BoolVariation Value flagKey user d) g).1 = (d, none)) ∧
    (∀ d : Int, (Value flag flagKey user).typeOf ≠ some .int →
      (call (IntVariation Value flagKey user d) g).1 = (d, none)) ∧
    (∀ d : float64, (Value flag flagKey user).typeOf ≠ some .float64 →
      (call (Float64Variation Value flagKey user d) g).1 = (d, none)) ∧
    (∀ d : String, (Value flag flagKey user).typeOf ≠ some .string →
      (call (StringVariation Value flagKey user d) g).1 = (d, none)) ∧
    (∀ d : Option (List Any), (Value flag flagKey user).typeOf ≠ some .slice →
      (call (JSONArrayVariation Value flagKey user d) g).1 = (d, none)) ∧
    (∀ d : Option (List (String × Any)), (Value flag flagKey user).typeOf ≠ some .map →
      (call (JSONVariation Value flagKey user d) g).1 = (d, none)) := by
  refine ⟨?_, ?_, ?_, ?_, ?_, ?_⟩ <;> intro d htype <;>
    cases hv : Value flag flagKey user <;>
    simp_all [BoolVariation_call, IntVariation_call, Float64Variation_call, StringVariation_call,
    JSONArrayVariation_call, JSONVariation_call, Any.typeOf]

/-- C4, worked example: the rows "Get default value, when rule apply and not
right type" of the six test tables (three strings where a bool, int, float or
list is asked for, three ints where a string or map is asked for). -/
theorem variation_mismatched_type_returns_default_witness :
    ((sampleValue (testFlag (.string "yyy") (.string "xxx") (.string "zzz")) "test-flag"
        (NewUser "random-key-ssss1")).typeOf ≠ some .bool ∧
      (call (BoolVariation sampleValue "test-flag" (NewUser "random-key-ssss1") true)
        (flagCacheMock (.string "yyy") (.string "xxx") (.string "zzz"))).1 = (true, none)) ∧
    ((sampleValue (testFlag (.string "yyy") (.string "xxx") (.string "zzz")) "test-flag"
        (NewUser "random-key-ssss1")).typeOf ≠ some .int ∧
      (call (IntVariation sampleValue "test-flag" (NewUser "random-key-ssss1") 118)
        (flagCacheMock (.string "yyy") (.string "xxx") (.string "zzz"))).1 = (118, none)) ∧
    ((sampleValue (testFlag (.string "yyy") (.string "xxx") (.string "zzz")) "test-flag"
        (NewUser "random-key-ssss1")).typeOf ≠ some .float64 ∧
      (call (Float64Variation sampleValue "test-flag" (NewUser "random-key-ssss1") f118)
        (flagCacheMock (.string "yyy") (.string "xxx") (.string "zzz"))).1 = (f118, none)) ∧
    ((sampleValue (testFlag (.int 1) (.int 2) (.int 3)) "test-flag"
        (NewUser "random-key-ssss1")).typeOf ≠ some .string ∧
      (call (StringVariation sampleValue "test-flag" (NewUser "random-key-ssss1") "default-notkey")
        (flagCacheMock (.int 1) (.int 2) (.int 3))).1 = ("default-notkey", none)) ∧
    ((sampleValue (testFlag (.string "yyy") (.string "xxx") (.string "zzz")) "test-flag"
        (NewUser "random-key-ssss1")).typeOf ≠ some .slice ∧
      (call (JSONArrayVariation sampleValue "test-flag" (NewUser "random-key-ssss1") (some [.string "toto"]))
        (flagCacheMock (.string "yyy") (.string "xxx") (.string "zzz"))).1 = ((some [.string "toto"]), none)) ∧
    ((sampleValue (testFlag (.int 1) (.int 2) (.int 3)) "test-flag"
        (NewUser "random-key-ssss1")).typeOf ≠ some .map ∧
      (call (JSONVariation sampleValue "test-flag" (NewUser "random-key-ssss1") (some [("default-notkey", .bool true)]))
        (flagCacheMock (.int 1) (.int 2) (.int 3))).1 = ((some [("default-notkey", .bool true)]), none)) :=
  ⟨⟨by decide, (variation_mismatched_type_returns_default sampleValue "test-flag"
      (NewUser "random-key-ssss1") (flagCacheMock (.string "yyy") (.string "xxx") (.string "zzz")) _ (testFlag (.string "yyy") (.string "xxx") (.string "zzz"))
      rfl (by simp [List.lookup])).1 true (by decide)⟩,
   ⟨by decide, (variation_mismatched_type_returns_default sampleValue "test-flag"
      (NewUser "random-key-ssss1") (flagCacheMock (.string "yyy") (.string "xxx") (.string "zzz")) _ (testFlag (.string "yyy") (.string "xxx") (.string "zzz"))
      rfl (by simp [List.lookup])).2.1 118 (by decide)⟩,
   ⟨by decide, (variation_mismatched_type_returns_default sampleValue "test-flag"
      (NewUser "random-key-ssss1") (flagCacheMock (.string "yyy") (.string "xxx") (.string "zzz")) _ (testFlag (.string "yyy") (.string "xxx") (.string "zzz"))
      rfl (by simp [List.lookup])).2.2.1 f118 (by decide)⟩,
   ⟨by decide, (variation_mismatched_type_returns_default sampleValue "test-flag"
      (NewUser "random-key-ssss1") (flagCacheMock (.int 1) (.int 2) (.int 3)) _ (testFlag (.int 1) (.int 2) (.int 3))
      rfl (by simp [List.lookup])).2.2.2.1 "default-notkey" (by decide)⟩,
   ⟨by decide, (variation_mismatched_type_returns_default sampleValue "test-flag"
      (NewUser "random-key-ssss1") (flagCacheMock (.string "yyy") (.string "xxx") (.string "zzz")) _ (testFlag (.string "yyy") (.string "xxx") (.string "zzz"))
      rfl (by simp [List.lookup])).2.2.2.2.1 (some [.string "toto"]) (by decide)⟩,
   ⟨by decide, (variation_mismatched_type_returns_default sampleValue "test-flag"
      (NewUser "random-key-ssss1") (flagCacheMock (.int 1) (.int 2) (.int 3)) _ (testFlag (.int 1) (.int 2) (.int 3))
      rfl (by simp [List.lookup])).2.2.2.2.2 (some [("default-notkey", .bool true)]) (by decide)⟩⟩

/-- C5: for each of the six operations and all inputs, the returned error is
non-nil exactly when the flag cache is uninitialised (nil); on an initialised
cache no evaluator, key, user or default makes an operation return an error. -/
theorem variation_error_iff_uninitialized (Value : Evaluator) (flagKey : String) (user : User)
    (g : Globals) :
    (∀ d : Bool,
      (call (BoolVariation Value flagKey user d) g).1.2 ≠ none ↔ g.FlagsCache = none) ∧
    (∀ d : Int,
      (call (IntVariation Value flagKey user d) g).1.2 ≠ none ↔ g.FlagsCache = none) ∧
    (∀ d : float64,
      (call (Float64Variation Value flagKey user d) g).1.2 ≠ none ↔ g.FlagsCache = none) ∧
    (∀ d : String,
      (call (StringVariation Value flagKey user d) g).1.2 ≠ none ↔ g.FlagsCache = none) ∧
    (∀ d : Option (List Any),
      (call (JSONArrayVariation Value flagKey user d) g).1.2 ≠ none ↔ g.FlagsCache = none) ∧
    (∀ d : Option (List (String × Any)),
      (call (JSONVariation Value flagKey user d) g).1.2 ≠ none ↔ g.FlagsCache = none) := by
  obtain ⟨c⟩ := g
  cases c with
  | none => simp [BoolVariation_call, IntVariation_call, Float64Variation_call, StringVariation_call,
    JSONArrayVariation_call, JSONVariation_call]
  | some entries =>
    cases hl : entries.lookup flagKey with
    | none => simp [BoolVariation_call, IntVariation_call, Float64Variation_call, StringVariation_call,
    JSONArrayVariation_call, JSONVariation_call, hl]
    | some flag =>
      cases hv : Value flag flagKey user <;>
      simp [BoolVariation_call, IntVariation_call, Float64Variation_call, StringVariation_call,
    JSONArrayVariation_call, JSONVariation_call, hl, hv]

/-- C6: each of the six operations leaves the flag cache, and with it every
flag definition stored there, unchanged: the package state after the call is the
package state before it, on the error path as on the default and resolved
paths. -/
theorem variation_preserves_cache (Value : Evaluator) (flagKey : String) (user : User)
    (g : Globals) :
    (∀ d : Bool, (call (BoolVariation Value flagKey user d) g).2 = g) ∧
    (∀ d : Int, (call (IntVariation Value flagKey user d) g).2 = g) ∧
    (∀ d : float64, (call (Float64Variation Value flagKey user d) g).2 = g) ∧
    (∀ d : String, (call (StringVariation Value flagKey user d) g).2 = g) ∧
    (∀ d : Option (List Any), (call (JSONArrayVariation Value flagKey user d) g).2 = g) ∧
    (∀ d : Option (List (String × Any)), (call (JSONVariation Value flagKey user d) g).2 = g) := by
  simp [BoolVariation_call, IntVariation_call, Float64Variation_call, StringVariation_call,
    JSONArrayVariation_call, JSONVariation_call]

/-- C7: each of the six operations computes the specification's generic
five-step resolution `resolve`, instantiated at its result type: the six differ
only in the zero value of step 1 and in the type the evaluated value is viewed
at. -/
theorem variation_refines_resolve (Value : Evaluator) (flagKey : String) (user : User)
    (g : Globals) :
    (∀ d : Bool, (call (BoolVariation Value flagKey user d) g).1 =
      resolve false Any.asBool Value g.FlagsCache flagKey user d) ∧
    (∀ d : Int, (call (IntVariation Value flagKey user d) g).1 =
      resolve 0 Any.asInt Value g.FlagsCache flagKey user d) ∧
    (∀ d : float64, (call (Float64Variation Value flagKey user d) g).1 =
      resolve ⟨0⟩ Any.asFloat64 Value g.FlagsCache flagKey user d) ∧
    (∀ d : String, (call (StringVariation Value flagKey user d) g).1 =
      resolve "" Any.asString Value g.FlagsCache flagKey user d) ∧
    (∀ d : Option (List Any), (call (JSONArrayVariation Value flagKey user d) g).1 =
      resolve none Any.asSlice Value g.FlagsCache flagKey user d) ∧
    (∀ d : Option (List (String × Any)), (call (JSONVariation Value flagKey user d) g).1 =
      resolve none Any.asMap Value g.FlagsCache flagKey user d) := by
  obtain ⟨c⟩ := g
  cases c with
  | none => simp [BoolVariation_call, IntVariation_call, Float64Variation_call, StringVariation_call,
    JSONArrayVariation_call, JSONVariation_call, resolve, errors.New]
  | some entries =>
    cases hl : entries.lookup flagKey with
    | none => simp [BoolVariation_call, IntVariation_call, Float64Variation_call, StringVariation_call,
    JSONArrayVariation_call, JSONVariation_call, resolve, hl]
    | some flag =>
      cases hv : Value flag flagKey user <;>
      simp [BoolVariation_call, IntVariation_call, Float64Variation_call, StringVariation_call,
    JSONArrayVariation_call, JSONVariation_call, resolve, hl, hv, Any.asBool, Any.asInt,
        Any.asFloat64, Any.asString, Any.asSlice, Any.asMap]

/-- C8: no operation panics or gets stuck.  For every package state (the nil
cache included), every flag key (the empty string included), every user, every
default and every evaluator (it may return any untyped value, nil included) each
of the six operations returns a (value, error) pair; and when the cache is
initialised the value is the caller's default or the value the entry of the key
evaluates to. -/
theorem variation_total_default_or_evaluated (Value : Evaluator) (flagKey : String)
    (user : User) (g : Globals) :
    (∀ d : Bool,
      (∃ v e, (call (BoolVariation Value flagKey user d) g).1 = (v, e)) ∧
      (g.FlagsCache ≠ none →
        (call (BoolVariation Value flagKey user d) g).1.1 = d ∨
        ∃ entries flag, g.FlagsCache = some entries ∧ entries.lookup flagKey = some flag ∧
          Any.bool (call (BoolVariation Value flagKey user d) g).1.1 = Value flag flagKey user)) ∧
    (∀ d : Int,
      (∃ v e, (call (IntVariation Value flagKey user d) g).1 = (v, e)) ∧
      (g.FlagsCache ≠ none →
        (call (IntVariation Value flagKey user d) g).1.1 = d ∨
        ∃ entries flag, g.FlagsCache = some entries ∧ entries.lookup flagKey = some flag ∧
          Any.int (call (IntVariation Value flagKey user d) g).1.1 = Value flag flagKey user)) ∧
    (∀ d : float64,
      (∃ v e, (call (Float64Variation Value flagKey user d) g).1 = (v, e)) ∧
      (g.FlagsCache ≠ none →
        (call (Float64Variation Value flagKey user d) g).1.1 = d ∨
        ∃ entries flag, g.FlagsCache = some entries ∧ entries.lookup flagKey = some flag ∧
          Any.float64 (call (Float64Variation Value flagKey user d) g).1.1 = Value flag flagKey user)) ∧
    (∀ d : String,
      (∃ v e, (call (StringVariation Value flagKey user d) g).1 = (v, e)) ∧
      (g.FlagsCache ≠ none →
        (call (StringVariation Value flagKey user d) g).1.1 = d ∨
        ∃ entries flag, g.FlagsCache = some entries ∧ entries.lookup flagKey = some flag ∧
          Any.string (call (StringVariation Value flagKey user d) g).1.1 = Value flag flagKey user)) ∧
    (∀ d : Option (List Any),
      (∃ v e, (call (JSONArrayVariation Value flagKey user d) g).1 = (v, e)) ∧
      (g.FlagsCache ≠ none →
        (call (JSONArrayVariation Value flagKey user d) g).1.1 = d ∨
        ∃ entries flag, g.FlagsCache = some entries ∧ entries.lookup flagKey = some flag ∧
          Any.slice (call (JSONArrayVariation Value flagKey user d) g).1.1 = Value flag flagKey user)) ∧
    (∀ d : Option (List (String × Any)),
      (∃ v e, (call (JSONVariation Value flagKey user d) g).1 = (v, e)) ∧
      (g.FlagsCache ≠ none →
        (call (JSONVariation Value flagKey user d) g).1.1 = d ∨
        ∃ entries flag, g.FlagsCache = some entries ∧ entries.lookup flagKey = some flag ∧
          Any.map (call (JSONVariation Value flagKey user d) g).1.1 = Value flag flagKey user)) := by
  obtain ⟨c⟩ := g
  cases c with
  | none => simp [BoolVariation_call, IntVariation_call, Float64Variation_call, StringVariation_call,
    JSONArrayVariation_call, JSONVariation_call]
  | some entries =>
    cases hl : entries.lookup flagKey with
    | none => simp [BoolVariation_call, IntVariation_call, Float64Variation_call, StringVariation_call,
    JSONArrayVariation_call, JSONVariation_call, hl]
    | some flag =>
      cases hv : Value flag flagKey user <;>
      simp [BoolVariation_call, IntVariation_call, Float64Variation_call, StringVariation_call,
    JSONArrayVariation_call, JSONVariation_call, hl, hv]

/-- C8, worked example: the empty flag key on an initialised cache that has an
entry for it whose evaluation is the nil interface; `JSONArrayVariation` returns
the caller's default. -/
theorem variation_total_default_or_evaluated_witness :
    (Globals.mk (some [("", testFlag .nil .nil .nil)])).FlagsCache ≠ none ∧
    ((call (JSONArrayVariation sampleValue "" (NewUser "") (some [.string "toto"]))
        (Globals.mk (some [("", testFlag .nil .nil .nil)]))).1.1 = some [.string "toto"] ∨
      ∃ entries flag,
        (Globals.mk (some [("", testFlag .nil .nil .nil)])).FlagsCache = some entries ∧
        entries.lookup "" = some flag ∧
        Any.slice (call (JSONArrayVariation sampleValue "" (NewUser "") (some [.string "toto"]))
          (Globals.mk (some [("", testFlag .nil .nil .nil)]))).1.1 =
          sampleValue flag "" (NewUser "")) :=
  ⟨by simp, ((variation_total_default_or_evaluated sampleValue "" (NewUser "")
    (Globals.mk (some [("", testFlag .nil .nil .nil)]))).2.2.2.2.1 (some [.string "toto"])).2
    (by simp)⟩

/-- C9: resolution is deterministic.  With the evaluator, the key, the user and
the default fixed, a call made in the package state a first call leaves behind
returns the same value as that first call, and its error is nil exactly when
the first call's error is. -/
theorem variation_deterministic (Value : Evaluator) (flagKey : String) (user : User)
    (g : Globals) :
    (∀ d : Bool,
      (call (BoolVariation Value flagKey user d) (call (BoolVariation Value flagKey user d) g).2).1.1 =
        (call (BoolVariation Value flagKey user d) g).1.1 ∧
      ((call (BoolVariation Value flagKey user d) (call (BoolVariation Value flagKey user d) g).2).1.2 = none ↔
        (call (BoolVariation Value flagKey user d) g).1.2 = none)) ∧
    (∀ d : Int,
      (call (IntVariation Value flagKey user d) (call (IntVariation Value flagKey user d) g).2).1.1 =
        (call (IntVariation Value flagKey user d) g).1.1 ∧
      ((call (IntVariation Value flagKey user d) (call (IntVariation Value flagKey user d) g).2).1.2 = none ↔
        (call (IntVariation Value flagKey user d) g).1.2 = none)) ∧
    (∀ d : float64,
      (call (Float64Variation Value flagKey user d) (call (Float64Variation Value flagKey user d) g).2).1.1 =
        (call (Float64Variation Value flagKey user d) g).1.1 ∧
      ((call (Float64Variation Value flagKey user d) (call (Float64Variation Value flagKey user d) g).2).1.2 = none ↔
        (call (Float64Variation Value flagKey user d) g).1.2 = none)) ∧
    (∀ d : String,
      (call (StringVariation Value flagKey user d) (call (StringVariation Value flagKey user d) g).2).1.1 =
        (call (StringVariation Value flagKey user d) g).1.1 ∧
      ((call (StringVariation Value flagKey user d) (call (StringVariation Value flagKey user d) g).2).1.2 = none ↔
        (call (StringVariation Value flagKey user d) g).1.2 = none)) ∧
    (∀ d : Option (List Any),
      (call (JSONArrayVariation Value flagKey user d) (call (JSONArrayVariation Value flagKey user d) g).2).1.1 =
        (call (JSONArrayVariation Value flagKey user d) g).1.1 ∧
      ((call (JSONArrayVariation Value flagKey user d) (call (JSONArrayVariation Value flagKey user d) g).2).1.2 = none ↔
        (call (JSONArrayVariation Value flagKey user d) g).1.2 = none)) ∧
    (∀ d : Option (List (String × Any)),
      (call (JSONVariation Value flagKey user d) (call (JSONVariation Value flagKey user d) g).2).1.1 =
        (call (JSONVariation Value flagKey user d) g).1.1 ∧
      ((call (JSONVariation Value flagKey user d) (call (JSONVariation Value flagKey user d) g).2).1.2 = none ↔
        (call (JSONVariation Value flagKey user d) g).1.2 = none)) := by
  simp [BoolVariation_call, IntVariation_call, Float64Variation_call, StringVariation_call,
    JSONArrayVariation_call, JSONVariation_call]

/-- C10: on an initialised cache with an entry for the flag key whose `True`,
`False` and `Default` slots all hold values of the requested type, and an
evaluator that selects one of these three slots, the operation returns one of
the three slot values with a nil error, for every user and caller default; when
the `Default` slot is selected the result is the definition's own `Default`
value, whatever the caller's default is. -/
theorem variation_selects_slot (Value : Evaluator) (flagKey : String) (user : User)
    (g : Globals) (entries : List (String × Flag)) (flag : Flag)
    (hinit : g.FlagsCache = some entries) (hpresent : entries.lookup flagKey = some flag)
    (hselect : Value flag flagKey user = flag.True ∨ Value flag flagKey user = flag.False ∨
      Value flag flagKey user = flag.Default) :
    (∀ d : Bool, flag.True.typeOf = some .bool → flag.False.typeOf = some .bool →
      flag.Default.typeOf = some .bool →
      (Any.bool (call (BoolVariation Value flagKey user d) g).1.1 = flag.True ∨
        Any.bool (call (BoolVariation Value flagKey user d) g).1.1 = flag.False ∨
        Any.bool (call (BoolVariation Value flagKey user d) g).1.1 = flag.Default) ∧
      (call (BoolVariation Value flagKey user d) g).1.2 = none ∧
      (Value flag flagKey user = flag.Default →
        Any.bool (call (BoolVariation Value flagKey user d) g).1.1 = flag.Default)) ∧
    (∀ d : Int, flag.True.typeOf = some .int → flag.False.typeOf = some .int →
      flag.Default.typeOf = some .int →
      (Any.int (call (IntVariation Value flagKey user d) g).1.1 = flag.True ∨
        Any.int (call (IntVariation Value flagKey user d) g).1.1 = flag.False ∨
        Any.int (call (IntVariation Value flagKey user d) g).1.1 = flag.Default) ∧
      (call (IntVariation Value flagKey user d) g).1.2 = none ∧
      (Value flag flagKey user = flag.Default →
        Any.int (call (IntVariation Value flagKey user d) g).1.1 = flag.Default)) ∧
    (∀ d : float64, flag.True.typeOf = some .float64 → flag.False.typeOf = some .float64 →
      flag.Default.typeOf = some .float64 →
      (Any.float64 (call (Float64Variation Value flagKey user d) g).1.1 = flag.True ∨
        Any.float64 (call (Float64Variation Value flagKey user d) g).1.1 = flag.False ∨
        Any.float64 (call (Float64Variation Value flagKey user d) g).1.1 = flag.Default) ∧
      (call (Float64Variation Value flagKey user d) g).1.2 = none ∧
      (Value flag flagKey user = flag.Default →
        Any.float64 (call (Float64Variation Value flagKey user d) g).1.1 = flag.Default)) ∧
    (∀ d : String, flag.True.typeOf = some .string → flag.False.typeOf = some .string →
      flag.Default.typeOf = some .string →
      (Any.string (call (StringVariation Value flagKey user d) g).1.1 = flag.True ∨
        Any.string (call (StringVariation Value flagKey user d) g).1.1 = flag.False ∨
        Any.string (call (StringVariation Value flagKey user d) g).1.1 = flag.Default) ∧
      (call (StringVariation Value flagKey user d) g).1.2 = none ∧
      (Value flag flagKey user = flag.Default →
        Any.string (call (StringVariation Value flagKey user d) g).1.1 = flag.Default)) ∧
    (∀ d : Option (List Any), flag.True.typeOf = some .slice → flag.False.typeOf = some .slice →
      flag.Default.typeOf = some .slice →
      (Any.slice (call (JSONArrayVariation Value flagKey user d) g).1.1 = flag.True ∨
        Any.slice (call (JSONArrayVariation Value flagKey user d) g).1.1 = flag.False ∨
        Any.slice (call (JSONArrayVariation Value flagKey user d) g).1.1 = flag.Default) ∧
      (call (JSONArrayVariation Value flagKey user d) g).1.2 = none ∧
      (Value flag flagKey user = flag.Default →
        Any.slice (call (JSONArrayVariation Value flagKey user d) g).1.1 = flag.Default)) ∧
    (∀ d : Option (List (String × Any)), flag.True.typeOf = some .map → flag.False.typeOf = some .map →
      flag.Default.typeOf = some .map →
      (Any.map (call (JSONVariation Value flagKey user d) g).1.1 = flag.True ∨
        Any.map (call (JSONVariation Value flagKey user d) g).1.1 = flag.False ∨
        Any.map (call (JSONVariation Value flagKey user d) g).1.1 = flag.Default) ∧
      (call (JSONVariation Value flagKey user d) g).1.2 = none ∧
      (Value flag flagKey user = flag.Default →
        Any.map (call (JSONVariation Value flagKey user d) g).1.1 = flag.Default)) := by
  have key : ∀ t : GoType, flag.True.typeOf = some t → flag.False.typeOf = some t →
      flag.Default.typeOf = some t → (Value flag flagKey user).typeOf = some t := by
    intro t h1 h2 h3
    rcases hselect with h | h | h <;> rw [h] <;> assumption
  refine ⟨?_, ?_, ?_, ?_, ?_, ?_⟩ <;> intro d h1 h2 h3 <;>
    have htype := key _ h1 h2 h3
  · obtain ⟨x, hx⟩ := Any.eq_bool_of_typeOf htype
    rw [hx] at hselect
    simp only [BoolVariation_call, hinit, hpresent, hx]
    exact ⟨hselect, trivial, id⟩
  · obtain ⟨x, hx⟩ := Any.eq_int_of_typeOf htype
    rw [hx] at hselect
    simp only [IntVariation_call, hinit, hpresent, hx]
    exact ⟨hselect, trivial, id⟩
  · obtain ⟨x, hx⟩ := Any.eq_float64_of_typeOf htype
    rw [hx] at hselect
    simp only [Float64Variation_call, hinit, hpresent, hx]
    exact ⟨hselect, trivial, id⟩
  · obtain ⟨x, hx⟩ := Any.eq_string_of_typeOf htype
    rw [hx] at hselect
    simp only [StringVariation_call, hinit, hpresent, hx]
    exact ⟨hselect, trivial, id⟩
  · obtain ⟨x, hx⟩ := Any.eq_slice_of_typeOf htype
    rw [hx] at hselect
    simp only [JSONArrayVariation_call, hinit, hpresent, hx]
    exact ⟨hselect, trivial, id⟩
  · obtain ⟨x, hx⟩ := Any.eq_map_of_typeOf htype
    rw [hx] at hselect
    simp only [JSONVariation_call, hinit, hpresent, hx]
    exact ⟨hselect, trivial, id⟩

/-- C10, worked example: the rows "Get default value rule not apply" of
`TestIntVariation` (definition `Default` 119, caller default 118, result 119)
and of `TestStringVariation`, the stand-in evaluator selecting the `Default`
slot for a user that is not anonymous. -/
theorem variation_selects_slot_witness :
    (sampleValue (testFlag (.int 120) (.int 121) (.int 119)) "test-flag" (NewUser "random-key") =
        (testFlag (.int 120) (.int 121) (.int 119)).Default ∧
      Any.int (call (IntVariation sampleValue "test-flag" (NewUser "random-key") 118)
        (flagCacheMock (.int 120) (.int 121) (.int 119))).1.1 = Any.int 119 ∧
      (call (IntVariation sampleValue "test-flag" (NewUser "random-key") 118)
        (flagCacheMock (.int 120) (.int 121) (.int 119))).1.1 ≠ 118 ∧
      (call (IntVariation sampleValue "test-flag" (NewUser "random-key") 118)
        (flagCacheMock (.int 120) (.int 121) (.int 119))).1.2 = none) ∧
    (Any.string (call (StringVariation sampleValue "test-flag" (NewUser "random-key")
        "default-notkey")
        (flagCacheMock (.string "true") (.string "false") (.string "default"))).1.1 =
        Any.string "default") :=
  have hi := (variation_selects_slot sampleValue "test-flag" (NewUser "random-key")
    (flagCacheMock (.int 120) (.int 121) (.int 119)) _
    (testFlag (.int 120) (.int 121) (.int 119)) rfl (by simp [List.lookup])
    (Or.inr (Or.inr rfl))).2.1 118 rfl rfl rfl
  have hs := (variation_selects_slot sampleValue "test-flag" (NewUser "random-key")
    (flagCacheMock (.string "true") (.string "false") (.string "default")) _
    (testFlag (.string "true") (.string "false") (.string "default")) rfl
    (by simp [List.lookup]) (Or.inr (Or.inr rfl))).2.2.2.1 "default-notkey" rfl rfl rfl
  ⟨⟨rfl, hi.2.2 rfl, by have h := Any.int.inj (hi.2.2 rfl); omega, hi.2.1⟩, hs.2.2 rfl⟩

/-- C11: on an initialised cache with an entry for the flag key whose `True`,
`False` and `Default` slots all hold values of a type other than the requested
one, and an evaluator that selects one of these three slots, the operation
returns the caller's default with a nil error, for every user and whichever slot
is selected. -/
theorem variation_foreign_slots_default (Value : Evaluator) (flagKey : String) (user : User)
    (g : Globals) (entries : List (String × Flag)) (flag : Flag)
    (hinit : g.FlagsCache = some entries) (hpresent : entries.lookup flagKey = some flag)
    (hselect : Value flag flagKey user = flag.True ∨ Value flag flagKey user = flag.False ∨
      Value flag flagKey user = flag.Default) :
    (∀ d : Bool, flag.True.typeOf ≠ some .bool → flag.False.typeOf ≠ some .bool →
      flag.Default.typeOf ≠ some .bool →
      (call (BoolVariation Value flagKey user d) g).1 = (d, none)) ∧
    (∀ d : Int, flag.True.typeOf ≠ some .int → flag.False.typeOf ≠ some .int →
      flag.Default.typeOf ≠ some .int →
      (call (IntVariation Value flagKey user d) g).1 = (d, none)) ∧
    (∀ d : float64, flag.True.typeOf ≠ some .float64 → flag.False.typeOf ≠ some .float64 →
      flag.Default.typeOf ≠ some .float64 →
      (call (Float64Variation Value flagKey user d) g).1 = (d, none)) ∧
    (∀ d : String, flag.True.typeOf ≠ some .string → flag.False.typeOf ≠ some .string →
      flag.Default.typeOf ≠ some .string →
      (call (StringVariation Value flagKey user d) g).1 = (d, none)) ∧
    (∀ d : Option (List Any), flag.True.typeOf ≠ some .slice → flag.False.typeOf ≠ some .slice →
      flag.Default.typeOf ≠ some .slice →
      (call (JSONArrayVariation Value flagKey user d) g).1 = (d, none)) ∧
    (∀ d : Option (List (String × Any)), flag.True.typeOf ≠ some .map → flag.False.typeOf ≠ some .map →
      flag.Default.typeOf ≠ some .map →
      (call (JSONVariation Value flagKey user d) g).1 = (d, none)) := by
  have key : ∀ t : GoType, flag.True.typeOf ≠ some t → flag.False.typeOf ≠ some t →
      flag.Default.typeOf ≠ some t → (Value flag flagKey user).typeOf ≠ some t := by
    intro t h1 h2 h3
    rcases hselect with h | h | h <;> rw [h] <;> assumption
  clear hselect
  refine ⟨?_, ?_, ?_, ?_, ?_, ?_⟩ <;> intro d h1 h2 h3 <;>
    have htype := key _ h1 h2 h3 <;> clear h1 h2 h3 key <;>
    cases hv : Value flag flagKey user <;>
    simp_all [BoolVariation_call, IntVariation_call, Float64Variation_call, StringVariation_call,
    JSONArrayVariation_call, JSONVariation_call, Any.typeOf]

/-- C11, worked example: the rows "Get default value, when rule apply and not
right type" of `TestBoolVariation` (three strings, a bool asked for) and of
`TestJSONVariation` (three ints, a map asked for), once with the `Default` slot
selected and once with the `True` slot. -/
theorem variation_foreign_slots_default_witness :
    ((testFlag (.string "yyy") (.string "xxx") (.string "zzz")).True.typeOf ≠ some .bool ∧
      (testFlag (.string "yyy") (.string "xxx") (.string "zzz")).False.typeOf ≠ some .bool ∧
      (testFlag (.string "yyy") (.string "xxx") (.string "zzz")).Default.typeOf ≠ some .bool ∧
      (call (BoolVariation sampleValue "test-flag" (NewUser "random-key-ssss1") true)
        (flagCacheMock (.string "yyy") (.string "xxx") (.string "zzz"))).1 = (true, none)) ∧
    ((call (JSONVariation sampleValue "test-flag" (NewAnonymousUser "random-key-ssss1")
        (some [("default-notkey", .bool true)]))
        (flagCacheMock (.int 1) (.int 2) (.int 3))).1 =
        (some [("default-notkey", .bool true)], none)) :=
  ⟨⟨by decide, by decide, by decide,
    (variation_foreign_slots_default sampleValue "test-flag" (NewUser "random-key-ssss1")
      (flagCacheMock (.string "yyy") (.string "xxx") (.string "zzz")) _
      (testFlag (.string "yyy") (.string "xxx") (.string "zzz")) rfl (by simp [List.lookup])
      (Or.inr (Or.inr rfl))).1 true (by decide) (by decide) (by decide)⟩,
   (variation_foreign_slots_default sampleValue "test-flag"
      (NewAnonymousUser "random-key-ssss1") (flagCacheMock (.int 1) (.int 2) (.int 3)) _
      (testFlag (.int 1) (.int 2) (.int 3)) rfl (by simp [List.lookup])
      (Or.inl rfl)).2.2.2.2.2 _ (by decide) (by decide) (by decide)⟩

/-! ## The local-file retriever -/

/-- C12: the retriever built by `NewLocalRetriever path`, on a file system that
maps `path` to contents `b`, retrieves exactly `b` and a nil error; on a file
system with no file at `path` it retrieves a non-nil error and nil bytes (none,
not a partial read). -/
theorem retrieve_contents_or_error (path : String) (files : FileSystem) :
    (∀ b, files path = some b →
      ((NewLocalRetriever path).Retrieve files).1 = (some b, none)) ∧
    (files path = none →
      ((NewLocalRetriever path).Retrieve files).1.1 = none ∧
      ((NewLocalRetriever path).Retrieve files).1.2 ≠ none) := by
  constructor
  · intro b hb
    simp [localRetriever.Retrieve, NewLocalRetriever, hb]
  · intro hnone
    simp [localRetriever.Retrieve, NewLocalRetriever, hnone, errors.New]

/-- C12, worked example: the two rows of `Test_localRetriever_Retrieve`, "File
exists" and "File does not exists". -/
theorem retrieve_contents_or_error_witness :
    (testFiles "../../testdata/test.yaml" = some testYaml ∧
      ((NewLocalRetriever "../../testdata/test.yaml").Retrieve testFiles).1 =
        (some testYaml, none)) ∧
    (testFiles "../../testdata/test-not-exist.yaml" = none ∧
      ((NewLocalRetriever "../../testdata/test-not-exist.yaml").Retrieve testFiles).1.1 = none ∧
      ((NewLocalRetriever "../../testdata/test-not-exist.yaml").Retrieve testFiles).1.2 ≠
        none) :=
  ⟨⟨by simp [testFiles],
    (retrieve_contents_or_error "../../testdata/test.yaml" testFiles).1 testYaml
      (by simp [testFiles])⟩,
   ⟨by simp [testFiles],
    (retrieve_contents_or_error "../../testdata/test-not-exist.yaml" testFiles).2
      (by simp [testFiles])⟩⟩

/-- C13: `Retrieve` is idempotent on an unchanged file.  For every path and file
system, a second `Retrieve` on the same retriever, run on the file system the
first call leaves, returns the same bytes and the same error outcome; the call
leaves the file system as it found it and the retriever's path is still the path
given at construction. -/
theorem retrieve_idempotent (path : String) (files : FileSystem) :
    (((NewLocalRetriever path).Retrieve files).2.1.Retrieve
        ((NewLocalRetriever path).Retrieve files).2.2).1.1 =
      ((NewLocalRetriever path).Retrieve files).1.1 ∧
    ((((NewLocalRetriever path).Retrieve files).2.1.Retrieve
        ((NewLocalRetriever path).Retrieve files).2.2).1.2 = none ↔
      ((NewLocalRetriever path).Retrieve files).1.2 = none) ∧
    ((NewLocalRetriever path).Retrieve files).2.2 = files ∧
    ((NewLocalRetriever path).Retrieve files).2.1.path = path ∧
    (((NewLocalRetriever path).Retrieve files).2.1.Retrieve
        ((NewLocalRetriever path).Retrieve files).2.2).2.1.path = path := by
  cases h : files path <;>
    simp [localRetriever.Retrieve, NewLocalRetriever, h]

/-! ## Further properties of the six operations -/

/-- C14: the type check performs no numeric coercion.  For a present flag whose
evaluation yields a `float64` (an integral one such as 120.0 included)
`IntVariation` returns the caller's default with a nil error, and for a present
flag whose evaluation yields an `int`, `Float64Variation` returns the caller's
default with a nil error. -/
theorem variation_no_numeric_coercion (Value : Evaluator) (flagKey : String) (user : User)
    (g : Globals) (entries : List (String × Flag)) (flag : Flag)
    (hinit : g.FlagsCache = some entries) (hpresent : entries.lookup flagKey = some flag) :
    (∀ (f : float64) (d : Int), Value flag flagKey user = .float64 f →
      (call (IntVariation Value flagKey user d) g).1 = (d, none)) ∧
    (∀ (i : Int) (d : float64), Value flag flagKey user = .int i →
      (call (Float64Variation Value flagKey user d) g).1 = (d, none)) := by
  constructor
  · intro f d hv
    simp [IntVariation_call, hinit, hpresent, hv]
  · intro i d hv
    simp [Float64Variation_call, hinit, hpresent, hv]

/-- C14, worked example: the definition of `TestFloat64Variation` (120.0, 121.0,
119.0) read through `IntVariation` with default 118, and the definition of
`TestIntVariation` (120, 121, 119) read through `Float64Variation` with default
118.0. -/
theorem variation_no_numeric_coercion_witness :
    (sampleValue (testFlag (.float64 f120) (.float64 f121) (.float64 f119)) "test-flag"
        (NewAnonymousUser "random-key") = .float64 f120 ∧
      (call (IntVariation sampleValue "test-flag" (NewAnonymousUser "random-key") 118)
        (flagCacheMock (.float64 f120) (.float64 f121) (.float64 f119))).1 = (118, none)) ∧
    (sampleValue (testFlag (.int 120) (.int 121) (.int 119)) "test-flag"
        (NewAnonymousUser "random-key") = .int 120 ∧
      (call (Float64Variation sampleValue "test-flag" (NewAnonymousUser "random-key") f118)
        (flagCacheMock (.int 120) (.int 121) (.int 119))).1 = (f118, none)) :=
  ⟨⟨rfl, (variation_no_numeric_coercion sampleValue "test-flag" (NewAnonymousUser "random-key")
      (flagCacheMock (.float64 f120) (.float64 f121) (.float64 f119)) _
      (testFlag (.float64 f120) (.float64 f121) (.float64 f119)) rfl
      (by simp [List.lookup])).1 f120 118 rfl⟩,
   ⟨rfl, (variation_no_numeric_coercion sampleValue "test-flag" (NewAnonymousUser "random-key")
      (flagCacheMock (.int 120) (.int 121) (.int 119)) _
      (testFlag (.int 120) (.int 121) (.int 119)) rfl
      (by simp [List.lookup])).2 120 f118 rfl⟩⟩

/-- C15: for a present flag whose evaluation has the requested type, the
result does not depend on the caller's default: with the same cache, key and
user, any two defaults give the same value, and the error is nil. -/
theorem variation_default_irrelevant (Value : Evaluator) (flagKey : String) (user : User)
    (g : Globals) (entries : List (String × Flag)) (flag : Flag)
    (hinit : g.FlagsCache = some entries) (hpresent : entries.lookup flagKey = some flag) :
    (∀ d1 d2 : Bool, (Value flag flagKey user).typeOf = some .bool →
      (call (BoolVariation Value flagKey user d1) g).1 = (call (BoolVariation Value flagKey user d2) g).1 ∧
      (call (BoolVariation Value flagKey user d1) g).1.2 = none) ∧
    (∀ d1 d2 : Int, (Value flag flagKey user).typeOf = some .int →
      (call (IntVariation Value flagKey user d1) g).1 = (call (IntVariation Value flagKey user d2) g).1 ∧
      (call (IntVariation Value flagKey user d1) g).1.2 = none) ∧
    (∀ d1 d2 : float64, (Value flag flagKey user).typeOf = some .float64 →
      (call (Float64Variation Value flagKey user d1) g).1 = (call (Float64Variation Value flagKey user d2) g).1 ∧
      (call (Float64Variation Value flagKey user d1) g).1.2 = none) ∧
    (∀ d1 d2 : String, (Value flag flagKey user).typeOf = some .string →
      (call (StringVariation Value flagKey user d1) g).1 = (call (StringVariation Value flagKey user d2) g).1 ∧
      (call (StringVariation Value flagKey user d1) g).1.2 = none) ∧
    (∀ d1 d2 : Option (List Any), (Value flag flagKey user).typeOf = some .slice →
      (call (JSONArrayVariation Value flagKey user d1) g).1 = (call (JSONArrayVariation Value flagKey user d2) g).1 ∧
      (call (JSONArrayVariation Value flagKey user d1) g).1.2 = none) ∧
    (∀ d1 d2 : Option (List (String × Any)), (Value flag flagKey user).typeOf = some .map →
      (call (JSONVariation Value flagKey user d1) g).1 = (call (JSONVariation Value flagKey user d2) g).1 ∧
      (call (JSONVariation Value flagKey user d1) g).1.2 = none) := by
  refine ⟨?_, ?_, ?_, ?_, ?_, ?_⟩ <;> intro d1 d2 htype
  · obtain ⟨x, hx⟩ := Any.eq_bool_of_typeOf htype
    simp only [BoolVariation_call, hinit, hpresent, hx]
    exact ⟨trivial, trivial⟩
  · obtain ⟨x, hx⟩ := Any.eq_int_of_typeOf htype
    simp only [IntVariation_call, hinit, hpresent, hx]
    exact ⟨trivial, trivial⟩
  · obtain ⟨x, hx⟩ := Any.eq_float64_of_typeOf htype
    simp only [Float64Variation_call, hinit, hpresent, hx]
    exact ⟨trivial, trivial⟩
  · obtain ⟨x, hx⟩ := Any.eq_string_of_typeOf htype
    simp only [StringVariation_call, hinit, hpresent, hx]
    exact ⟨trivial, trivial⟩
  · obtain ⟨x, hx⟩ := Any.eq_slice_of_typeOf htype
    simp only [JSONArrayVariation_call, hinit, hpresent, hx]
    exact ⟨trivial, trivial⟩
  · obtain ⟨x, hx⟩ := Any.eq_map_of_typeOf htype
    simp only [JSONVariation_call, hinit, hpresent, hx]
    exact ⟨trivial, trivial⟩

/-- C15, worked example: the definition of `TestStringVariation` read with the
defaults `"default-notkey"` and `""`, and the definition of
`TestJSONArrayVariation` read with the defaults `["toto"]` and nil. -/
theorem variation_default_irrelevant_witness :
    ((sampleValue (testFlag (.string "true") (.string "false") (.string "default")) "test-flag"
        (NewUser "random-key")).typeOf = some .string ∧
      (call (StringVariation sampleValue "test-flag" (NewUser "random-key") "default-notkey")
        (flagCacheMock (.string "true") (.string "false") (.string "default"))).1 =
      (call (StringVariation sampleValue "test-flag" (NewUser "random-key") "")
        (flagCacheMock (.string "true") (.string "false") (.string "default"))).1) ∧
    ((call (JSONArrayVariation sampleValue "test-flag" (NewUser "random-key")
        (some [.string "toto"]))
        (flagCacheMock (.slice (some [.string "true"])) (.slice (some [.string "false"]))
          (.slice (some [.string "default"])))).1 =
      (call (JSONArrayVariation sampleValue "test-flag" (NewUser "random-key") none)
        (flagCacheMock (.slice (some [.string "true"])) (.slice (some [.string "false"]))
          (.slice (some [.string "default"])))).1) :=
  ⟨⟨rfl, ((variation_default_irrelevant sampleValue "test-flag" (NewUser "random-key")
      (flagCacheMock (.string "true") (.string "false") (.string "default")) _
      (testFlag (.string "true") (.string "false") (.string "default")) rfl
      (by simp [List.lookup])).2.2.2.1 "default-notkey" "" rfl).1⟩,
   ((variation_default_irrelevant sampleValue "test-flag" (NewUser "random-key")
      (flagCacheMock (.slice (some [.string "true"])) (.slice (some [.string "false"]))
        (.slice (some [.string "default"]))) _
      (testFlag (.slice (some [.string "true"])) (.slice (some [.string "false"]))
        (.slice (some [.string "default"]))) rfl
      (by simp [List.lookup])).2.2.2.2.1 (some [.string "toto"]) none rfl).1⟩

/-- C16: the evaluator is consulted only for a present key.  When the cache is
uninitialised, or initialised without an entry for the flag key, the result of
each of the six operations is the same for every user and every evaluator; it
is fixed by whether the cache is nil and by the caller's default alone (two
states, two keys, two users and two evaluators give the same result as soon as
both caches are nil, or both are initialised and lack their key). -/
theorem variation_evaluator_unused (Value Value2 : Evaluator) (flagKey flagKey2 : String)
    (user user2 : User) (g g2 : Globals)
    (hcase : (g.FlagsCache = none ∧ g2.FlagsCache = none) ∨
      (∃ entries entries2, g.FlagsCache = some entries ∧ entries.lookup flagKey = none ∧
        g2.FlagsCache = some entries2 ∧ entries2.lookup flagKey2 = none)) :
    (∀ d : Bool, (call (BoolVariation Value flagKey user d) g).1 =
      (call (BoolVariation Value2 flagKey2 user2 d) g2).1) ∧
    (∀ d : Int, (call (IntVariation Value flagKey user d) g).1 =
      (call (IntVariation Value2 flagKey2 user2 d) g2).1) ∧
    (∀ d : float64, (call (Float64Variation Value flagKey user d) g).1 =
      (call (Float64Variation Value2 flagKey2 user2 d) g2).1) ∧
    (∀ d : String, (call (StringVariation Value flagKey user d) g).1 =
      (call (StringVariation Value2 flagKey2 user2 d) g2).1) ∧
    (∀ d : Option (List Any), (call (JSONArrayVariation Value flagKey user d) g).1 =
      (call (JSONArrayVariation Value2 flagKey2 user2 d) g2).1) ∧
    (∀ d : Option (List (String × Any)), (call (JSONVariation Value flagKey user d) g).1 =
      (call (JSONVariation Value2 flagKey2 user2 d) g2).1) := by
  rcases hcase with ⟨h1, h2⟩ | ⟨entries, entries2, h1, h2, h3, h4⟩
  · simp [BoolVariation_call, IntVariation_call, Float64Variation_call, StringVariation_call,
    JSONArrayVariation_call, JSONVariation_call, h1, h2]
  · simp [BoolVariation_call, IntVariation_call, Float64Variation_call, StringVariation_call,
    JSONArrayVariation_call, JSONVariation_call, h1, h2, h3, h4]

/-- C16, worked example: on the nil cache, and on the cache of `TestBoolVariation`
for the key `"key-not-exist"`, the stand-in evaluator and an evaluator that
always answers `false` give the same result, for two different users. -/
theorem variation_evaluator_unused_witness :
    ((Globals.mk none).FlagsCache = none ∧
      (call (BoolVariation sampleValue "key-not-exist" (NewUser "random-key") true)
        (Globals.mk none)).1 =
      (call (BoolVariation (fun _ _ _ => .bool false) "key-not-exist"
        (NewAnonymousUser "other-key") true) (Globals.mk none)).1) ∧
    (List.lookup "key-not-exist"
        [("test-flag", testFlag (.bool true) (.bool false) (.bool true))] = none ∧
      (call (BoolVariation sampleValue "key-not-exist" (NewUser "random-key") true)
        (flagCacheMock (.bool true) (.bool false) (.bool true))).1 =
      (call (BoolVariation (fun _ _ _ => .bool false) "key-not-exist"
        (NewAnonymousUser "other-key") true)
        (flagCacheMock (.bool true) (.bool false) (.bool true))).1) :=
  ⟨⟨rfl, (variation_evaluator_unused sampleValue (fun _ _ _ => .bool false) "key-not-exist"
      "key-not-exist" (NewUser "random-key") (NewAnonymousUser "other-key") (Globals.mk none)
      (Globals.mk none) (Or.inl ⟨rfl, rfl⟩)).1 true⟩,
   ⟨by simp [List.lookup],
    (variation_evaluator_unused sampleValue (fun _ _ _ => .bool false) "key-not-exist"
      "key-not-exist" (NewUser "random-key") (NewAnonymousUser "other-key")
      (flagCacheMock (.bool true) (.bool false) (.bool true))
      (flagCacheMock (.bool true) (.bool false) (.bool true))
      (Or.inr ⟨_, _, rfl, by simp [List.lookup], rfl, by simp [List.lookup]⟩)).1 true⟩⟩

/-- C17: resolution depends only on the entry of the requested key.  For any
two initialised caches that agree on the flag key (both lack it, or both hold
the same definition for it), each of the six operations returns the same result
for the same evaluator, key, user and default, whatever else the caches
contain. -/
theorem variation_depends_on_entry_only (Value : Evaluator) (flagKey : String) (user : User)
    (g g2 : Globals) (entries entries2 : List (String × Flag))
    (hinit : g.FlagsCache = some entries) (hinit2 : g2.FlagsCache = some entries2)
    (hagree : entries.lookup flagKey = entries2.lookup flagKey) :
    (∀ d : Bool, (call (BoolVariation Value flagKey user d) g).1 =
      (call (BoolVariation Value flagKey user d) g2).1) ∧
    (∀ d : Int, (call (IntVariation Value flagKey user d) g).1 =
      (call (IntVariation Value flagKey user d) g2).1) ∧
    (∀ d : float64, (call (Float64Variation Value flagKey user d) g).1 =
      (call (Float64Variation Value flagKey user d) g2).1) ∧
    (∀ d : String, (call (StringVariation Value flagKey user d) g).1 =
      (call (StringVariation Value flagKey user d) g2).1) ∧
    (∀ d : Option (List Any), (call (JSONArrayVariation Value flagKey user d) g).1 =
      (call (JSONArrayVariation Value flagKey user d) g2).1) ∧
    (∀ d : Option (List (String × Any)), (call (JSONVariation Value flagKey user d) g).1 =
      (call (JSONVariation Value flagKey user d) g2).1) := by
  simp [BoolVariation_call, IntVariation_call, Float64Variation_call, StringVariation_call,
    JSONArrayVariation_call, JSONVariation_call, hinit, hinit2, hagree]

/-- C17, worked example: the cache of `TestIntVariation` and the same cache with
two further entries around `"test-flag"` give the same `IntVariation` result. -/
theorem variation_depends_on_entry_only_witness :
    List.lookup "test-flag" [("test-flag", testFlag (.int 120) (.int 121) (.int 119))] =
      List.lookup "test-flag"
        [("another-flag", testFlag (.string "yyy") (.string "xxx") (.string "zzz")),
         ("test-flag", testFlag (.int 120) (.int 121) (.int 119)),
         ("last-flag", testFlag (.bool true) (.bool false) (.bool true))] ∧
    (call (IntVariation sampleValue "test-flag" (NewUser "random-key") 118)
      (flagCacheMock (.int 120) (.int 121) (.int 119))).1 =
    (call (IntVariation sampleValue "test-flag" (NewUser "random-key") 118)
      (Globals.mk (some
        [("another-flag", testFlag (.string "yyy") (.string "xxx") (.string "zzz")),
         ("test-flag", testFlag (.int 120) (.int 121) (.int 119)),
         ("last-flag", testFlag (.bool true) (.bool false) (.bool true))]))).1 :=
  ⟨by simp [List.lookup],
   (variation_depends_on_entry_only sampleValue "test-flag" (NewUser "random-key")
      (flagCacheMock (.int 120) (.int 121) (.int 119)) (Globals.mk (some _)) _ _ rfl rfl
      (by simp [List.lookup])).2.1 118⟩

/-- C18: for a present flag whose evaluation yields the nil interface (no value
at all, as from an unset slot), each of the six operations, `JSONArrayVariation`
and `JSONVariation` with their nil zero value included, returns the caller's
default and a nil error. -/
theorem variation_nil_evaluation_default (Value : Evaluator) (flagKey : String) (user : User)
    (g : Globals) (entries : List (String × Flag)) (flag : Flag)
    (hinit : g.FlagsCache = some entries) (hpresent : entries.lookup flagKey = some flag)
    (hnil : Value flag flagKey user = .nil) :
    (∀ d : Bool, (call (BoolVariation Value flagKey user d) g).1 = (d, none)) ∧
    (∀ d : Int, (call (IntVariation Value flagKey user d) g).1 = (d, none)) ∧
    (∀ d : float64, (call (Float64Variation Value flagKey user d) g).1 = (d, none)) ∧
    (∀ d : String, (call (StringVariation Value flagKey user d) g).1 = (d, none)) ∧
    (∀ d : Option (List Any), (call (JSONArrayVariation Value flagKey user d) g).1 = (d, none)) ∧
    (∀ d : Option (List (String × Any)), (call (JSONVariation Value flagKey user d) g).1 = (d, none)) := by
  simp [BoolVariation_call, IntVariation_call, Float64Variation_call, StringVariation_call,
    JSONArrayVariation_call, JSONVariation_call, hinit, hpresent, hnil]

/-- C18, worked example: a definition whose three slots are unset, read through
`JSONArrayVariation` with default `["toto"]` and through `JSONVariation` with a
one-entry default. -/
theorem variation_nil_evaluation_default_witness :
    sampleValue (testFlag .nil .nil .nil) "test-flag" (NewUser "random-key") = .nil ∧
    (call (JSONArrayVariation sampleValue "test-flag" (NewUser "random-key")
      (some [.string "toto"])) (flagCacheMock .nil .nil .nil)).1 =
      (some [.string "toto"], none) ∧
    (call (JSONVariation sampleValue "test-flag" (NewUser "random-key")
      (some [("default-notkey", .bool true)])) (flagCacheMock .nil .nil .nil)).1 =
      (some [("default-notkey", .bool true)], none) :=
  have h := variation_nil_evaluation_default sampleValue "test-flag" (NewUser "random-key")
    (flagCacheMock .nil .nil .nil) _ (testFlag .nil .nil .nil) rfl (by simp [List.lookup]) rfl
  ⟨rfl, h.2.2.2.2.1 _, h.2.2.2.2.2 _⟩

/-- C19: on an uninitialised cache the error each of the six operations
returns carries exactly the message "impossible to read the toggle before the
initialisation", the same for all six and for every evaluator, key, user and
default. -/
theorem variation_uninitialized_message (Value : Evaluator) (flagKey : String) (user : User)
    (g : Globals) (hnil : g.FlagsCache = none) :
    (∀ d : Bool, ∃ e, (call (BoolVariation Value flagKey user d) g).1.2 = some e ∧
      e.Error = "impossible to read the toggle before the initialisation") ∧
    (∀ d : Int, ∃ e, (call (IntVariation Value flagKey user d) g).1.2 = some e ∧
      e.Error = "impossible to read the toggle before the initialisation") ∧
    (∀ d : float64, ∃ e, (call (Float64Variation Value flagKey user d) g).1.2 = some e ∧
      e.Error = "impossible to read the toggle before the initialisation") ∧
    (∀ d : String, ∃ e, (call (StringVariation Value flagKey user d) g).1.2 = some e ∧
      e.Error = "impossible to read the toggle before the initialisation") ∧
    (∀ d : Option (List Any), ∃ e, (call (JSONArrayVariation Value flagKey user d) g).1.2 = some e ∧
      e.Error = "impossible to read the toggle before the initialisation") ∧
    (∀ d : Option (List (String × Any)), ∃ e, (call (JSONVariation Value flagKey user d) g).1.2 = some e ∧
      e.Error = "impossible to read the toggle before the initialisation") := by
  simp [BoolVariation_call, IntVariation_call, Float64Variation_call, StringVariation_call,
    JSONArrayVariation_call, JSONVariation_call, hnil, errors.errorString.Error,
    errorCacheNotInit]

/-- C19, worked example: the first row of `TestJSONVariation` (cache nil). -/
theorem variation_uninitialized_message_witness :
    (Globals.mk none).FlagsCache = none ∧
    ∃ e, (call (JSONVariation sampleValue "key-not-exist" (NewUser "random-key")
        (some [("default-notkey", .bool true)])) (Globals.mk none)).1.2 = some e ∧
      e.Error = "impossible to read the toggle before the initialisation" :=
  ⟨rfl, (variation_uninitialized_message sampleValue "key-not-exist" (NewUser "random-key")
    (Globals.mk none) rfl).2.2.2.2.2 _⟩

end ffclient
